import Mathlib

/-!
Verification of the ZenML Kubeflow orchestrator lifecycle controller and the
CLI pipeline configuration resolver, shallowly embedded from
`src/zenml/integrations/kubeflow/orchestrators/kubeflow_orchestrator.py` and
`src/zenml/cli/pipeline.py`.  External collaborators (k3d tooling, the kfp
client, the filesystem, the network) are modelled as explicit oracles in an
environment record; every side-effecting call of the source is recorded as an
event in an explicit trace.
-/

namespace ZenML

/-- Substring containment: `pat` occurs somewhere inside `s`. -/
def containsStr (s pat : String) : Prop := ∃ a b : String, s = a ++ (pat ++ b)

theorem strAppend_assoc (a b c : String) : a ++ b ++ c = a ++ (b ++ c) := by
  apply String.ext
  simp [String.data_append, List.append_assoc]

/-! ## Stack components and the Kubeflow orchestrator stack validator

Embedded from `KubeflowOrchestrator.validator._validate_local_requirements`
(kubeflow_orchestrator.py lines 132-196).  A stack component advertises an
optional `local_path`; Python truthiness makes both `None` and the empty
string count as "no local path". -/

structure StackComponent where
  name : String
  typeValue : String
  localPath : Option String
deriving DecidableEq

/-- Truthiness of `stack_comp.local_path` in `if not local_path: continue`. -/
def hasLocalPath (c : StackComponent) : Bool :=
  match c.localPath with
  | none => false
  | some s => !s.isEmpty

structure ContainerRegistry where
  name : String
  uri : String
  registryIsLocal : Bool
deriving DecidableEq

structure StackModel where
  components : List StackComponent
  containerRegistry : ContainerRegistry

/-- Orchestrator configuration fields used by the embedded methods
(pydantic attributes of `KubeflowOrchestrator`). -/
structure KubeflowConfig where
  uuid : String
  kubernetesContext : String
  kubeflowPipelinesUiPort : Nat
  synchronous : Bool

def DEFAULT_KFP_UI_PORT : Nat := 8080

/-- Embeds `_get_k3d_cluster_name` (first 8 chars of the uuid string). -/
def get_k3d_cluster_name (uuid : String) : String :=
  "zenml-kubeflow-" ++ (uuid.take 8)

/-- Embeds `_get_k3d_kubernetes_context`. -/
def get_k3d_kubernetes_context (uuid : String) : String :=
  "k3d-" ++ get_k3d_cluster_name uuid

/-- Embeds the `is_local` property: the configured kubernetes context equals
the context of the k3d cluster managed by ZenML for this orchestrator. -/
def is_local (cfg : KubeflowConfig) : Bool :=
  cfg.kubernetesContext == get_k3d_kubernetes_context cfg.uuid

/-- Failure message of the validator for a local component found in a stack
with a remote orchestrator (names the component). -/
def remoteLocalComponentMsg (c : StackComponent) : String :=
  "The Kubeflow orchestrator is not running in a local k3d cluster. The \x27" ++
    (c.name ++ ("\x27 " ++ (c.typeValue ++
      " is a local stack component and will not be available in the Kubeflow pipeline step. Please ensure that you always use non-local stack components with a remote Kubeflow orchestrator, otherwise you may run into pipeline execution problems.")))

/-- Failure message for a local container registry with a remote orchestrator. -/
def remoteLocalRegistryMsg (r : ContainerRegistry) : String :=
  "The Kubeflow orchestrator is not running in a local k3d cluster but the " ++
    (r.name ++ (" container registry URI \x27" ++ (r.uri ++
      "\x27 points to a local container registry. Please ensure that you always use non-local stack components with a remote Kubeflow orchestrator, otherwise you will run into problems.")))

/-- Failure message for a non-local container registry with a local orchestrator. -/
def localRegistryFormatMsg (r : ContainerRegistry) : String :=
  "The container registry URI \x27" ++
    (r.uri ++
      "\x27 doesn\x27t match the expected format \x27localhost:$PORT\x27. The local Kubeflow orchestrator only works with a local container registry because it cannot authenticate to external container registries.")

/-- Embeds `_validate_local_requirements` (kubeflow_orchestrator.py 132-191):
the custom validation rule of the `StackValidator` returned by the
`validator` property. -/
def validate_local_requirements (cfg : KubeflowConfig) (stack : StackModel) :
    Bool × String :=
  if !is_local cfg then
    match stack.components.find? hasLocalPath with
    | some c => (false, remoteLocalComponentMsg c)
    | none =>
      if stack.containerRegistry.registryIsLocal then
        (false, remoteLocalRegistryMsg stack.containerRegistry)
      else
        (true, "")
  else
    if !stack.containerRegistry.registryIsLocal then
      (false, localRegistryFormatMsg stack.containerRegistry)
    else
      (true, "")

/-- C1: if the orchestrator is not self-managed-local, the rule fails naming
the first component with a non-empty local path; with no local component it
fails exactly when the container registry is local; if the orchestrator is
self-managed-local, it fails when the registry is not local and returns
success with an empty reason otherwise. -/
theorem validator_locality_rule (cfg : KubeflowConfig) (stack : StackModel) :
    (is_local cfg = false → ∀ c : StackComponent,
      stack.components.find? hasLocalPath = some c →
        validate_local_requirements cfg stack = (false, remoteLocalComponentMsg c) ∧
        containsStr (remoteLocalComponentMsg c) c.name) ∧
    (is_local cfg = false → stack.components.find? hasLocalPath = none →
      stack.containerRegistry.registryIsLocal = true →
        validate_local_requirements cfg stack =
          (false, remoteLocalRegistryMsg stack.containerRegistry)) ∧
    (is_local cfg = true → stack.containerRegistry.registryIsLocal = false →
        validate_local_requirements cfg stack =
          (false, localRegistryFormatMsg stack.containerRegistry)) ∧
    (is_local cfg = true → stack.containerRegistry.registryIsLocal = true →
        validate_local_requirements cfg stack = (true, "")) := by
  refine ⟨?_, ?_, ?_, ?_⟩
  · intro h c hc
    refine ⟨?_, ?_⟩
    · simp [validate_local_requirements, h, hc]
    · exact ⟨"The Kubeflow orchestrator is not running in a local k3d cluster. The \x27",
        "\x27 " ++ (c.typeValue ++
          " is a local stack component and will not be available in the Kubeflow pipeline step. Please ensure that you always use non-local stack components with a remote Kubeflow orchestrator, otherwise you may run into pipeline execution problems."),
        rfl⟩
  · intro h hn hr
    simp [validate_local_requirements, h, hn, hr]
  · intro h hr
    simp [validate_local_requirements, h, hr]
  · intro h hr
    simp [validate_local_requirements, h, hr]

def exampleRemoteCfg : KubeflowConfig :=
  ⟨"abcdef1234", "gke-remote-context", 8080, false⟩

def exampleLocalCfg : KubeflowConfig :=
  ⟨"abcdef1234", "k3d-zenml-kubeflow-abcdef12", 8080, false⟩

def exampleLocalComp : StackComponent :=
  ⟨"local-store", "artifact_store", some "/tmp/zenml"⟩

def exampleRemoteReg : ContainerRegistry := ⟨"gcr", "gcr.io/proj", false⟩

def exampleLocalReg : ContainerRegistry := ⟨"local", "localhost:5000", true⟩

/-- Witness for `validator_locality_rule`: evaluates all four clauses of the
rule on concrete stacks. -/
theorem validator_locality_rule_witness :
    validate_local_requirements exampleRemoteCfg
        ⟨[exampleLocalComp], exampleRemoteReg⟩ =
      (false, remoteLocalComponentMsg exampleLocalComp) ∧
    validate_local_requirements exampleRemoteCfg ⟨[], exampleLocalReg⟩ =
      (false, remoteLocalRegistryMsg exampleLocalReg) ∧
    validate_local_requirements exampleLocalCfg ⟨[], exampleRemoteReg⟩ =
      (false, localRegistryFormatMsg exampleRemoteReg) ∧
    validate_local_requirements exampleLocalCfg ⟨[], exampleLocalReg⟩ =
      (true, "") := by
  refine ⟨?_, ?_, ?_, ?_⟩
  · exact ((validator_locality_rule exampleRemoteCfg
      ⟨[exampleLocalComp], exampleRemoteReg⟩).1 (by decide) exampleLocalComp
      (by decide)).1
  · exact (validator_locality_rule exampleRemoteCfg
      ⟨[], exampleLocalReg⟩).2.1 (by decide) (by decide) rfl
  · exact (validator_locality_rule exampleLocalCfg
      ⟨[], exampleRemoteReg⟩).2.2.1 (by decide) rfl
  · exact (validator_locality_rule exampleLocalCfg
      ⟨[], exampleLocalReg⟩).2.2.2 (by decide) rfl

/-! ## Orchestrator lifecycle controller

State of the external world observed and mutated by the controller.  The
probe fields mirror the external collaborators
(`local_deployment_utils.check_prerequisites`, `k3d_cluster_exists`,
`k3d_cluster_running`, `check_if_daemon_is_running`, `fileio.exists`,
`networking_utils.port_available`, `find_available_port`); the `...Fails`
flags are oracles stating whether the corresponding external call raises an
exception when invoked. -/

structure KfpEnv where
  prerequisitesInstalled : Bool
  clusterExists : Bool
  clusterRunning : Bool
  daemonRunning : Bool
  logFileExists : Bool
  rootDirExists : Bool
  registryConfigWritten : Bool
  createClusterFails : Bool
  deployKfpFails : Bool
  mountPathFails : Bool
  portFree : Nat → Bool
  freshPort : Nat

/-- Stack data read by `provision` through `Repository().active_stack`. -/
structure ActiveStack where
  containerRegistryUri : String
  artifactStoreLocalPath : Option String

/-- Trace events: one constructor per side-effecting call of the source. -/
inductive Effect where
  | logInfo (msg : String)
  | logError
  | logWarning (msg : String)
  | checkPrerequisitesCall
  | makeRootDir
  | writeRegistryYaml
  | createCluster
  | deployKubeflowPipelines
  | mountLocalPath (p : String)
  | listManualSetupSteps
  | deprovisionCalled
  | stopDaemon
  | deleteCluster
  | removeLogFile
  | startCluster
  | waitUntilReady
  | startDaemon (port : Nat)
  | getExperimentCall
  | createExperimentCall
  | createRecurringRunCall
  | createOneOffRunCall
  | waitForCompletionCall
deriving DecidableEq

/-- Embeds the `is_cluster_provisioned` property (always true for a remote
installation). -/
def is_cluster_provisioned (cfg : KubeflowConfig) (env : KfpEnv) : Bool :=
  if !is_local cfg then true else env.clusterExists

/-- Embeds the `is_cluster_running` property (always true for a remote
installation). -/
def is_cluster_running (cfg : KubeflowConfig) (env : KfpEnv) : Bool :=
  if !is_local cfg then true else env.clusterRunning

/-- Embeds the `is_daemon_running` property (non-Windows branch). -/
def is_daemon_running (env : KfpEnv) : Bool := env.daemonRunning

/-- Embeds the `is_provisioned` property. -/
def is_provisioned (cfg : KubeflowConfig) (env : KfpEnv) : Bool :=
  env.prerequisitesInstalled && is_cluster_provisioned cfg env

/-- Embeds the `is_running` property. -/
def is_running (cfg : KubeflowConfig) (env : KfpEnv) : Bool :=
  is_provisioned cfg env && is_cluster_running cfg env && is_daemon_running env

/-- Embeds the `is_suspended` property. -/
def is_suspended (cfg : KubeflowConfig) (env : KfpEnv) : Bool :=
  is_provisioned cfg env && !is_cluster_running cfg env && !is_daemon_running env

structure ProvisioningError where
  msg : String
deriving DecidableEq

def provisionExistingMsg : String :=
  "Found already existing local Kubeflow Pipelines deployment. If there are any issues with the existing deployment, please run \x27zenml stack down --force\x27 to delete it."

def provisionPrereqMsg : String :=
  "Unable to provision local Kubeflow Pipelines deployment: Please install \x27k3d\x27 and \x27kubectl\x27 and try again."

def provisioningLocalMsg : String :=
  "Provisioning local Kubeflow Pipelines deployment..."

def deprovisionedMsg : String :=
  "Local kubeflow pipelines deployment deprovisioned."

def resumeAlreadyRunningMsg : String :=
  "Local kubeflow pipelines deployment already running."

def resumeNotProvisionedMsg : String :=
  "Unable to resume local kubeflow pipelines deployment: No resources provisioned for local deployment."

/-- Embeds `deprovision` (kubeflow_orchestrator.py 612-628): stop the UI
daemon if running, delete the k3d cluster if the orchestrator is local,
remove the log file if it exists.  The leading `deprovisionCalled` event
marks the method invocation so that callers (the rollback path of
`provision`) leave it in their trace. -/
def deprovisionRun (cfg : KubeflowConfig) (env : KfpEnv) :
    KfpEnv × List Effect :=
  let s1 :=
    if is_daemon_running env then
      ({ env with daemonRunning := false }, [Effect.stopDaemon])
    else (env, [])
  let s2 :=
    if is_local cfg then
      ({ s1.1 with clusterExists := false, clusterRunning := false },
        s1.2 ++ [Effect.deleteCluster, Effect.logInfo deprovisionedMsg])
    else s1
  let s3 :=
    if s2.1.logFileExists then
      ({ s2.1 with logFileExists := false }, s2.2 ++ [Effect.removeLogFile])
    else s2
  (s3.1, Effect.deprovisionCalled :: s3.2)

/-- Rollback path of the `except` block of `provision`: log the exception,
log the manual setup steps, call `deprovision`, then return normally. -/
def provisionRollback (cfg : KubeflowConfig) (env : KfpEnv)
    (tr : List Effect) :
    Except ProvisioningError Unit × KfpEnv × List Effect :=
  let d := deprovisionRun cfg env
  (Except.ok (), d.1, tr ++ (Effect.logError :: Effect.listManualSetupSteps :: d.2))

/-- Embeds `provision` (kubeflow_orchestrator.py 544-610). -/
def provision (cfg : KubeflowConfig) (stack : ActiveStack) (env : KfpEnv) :
    Except ProvisioningError Unit × KfpEnv × List Effect :=
  if is_running cfg env then
    (Except.ok (), env, [Effect.logInfo provisionExistingMsg])
  else if !env.prerequisitesInstalled then
    (Except.error ⟨provisionPrereqMsg⟩, env, [Effect.checkPrerequisitesCall])
  else
    let env1 := { env with rootDirExists := true }
    let tr1 := [Effect.checkPrerequisitesCall, Effect.makeRootDir]
    if !is_local cfg then (Except.ok (), env1, tr1)
    else
      let env2 := { env1 with registryConfigWritten := true }
      let tr2 := tr1 ++ [Effect.logInfo provisioningLocalMsg, Effect.writeRegistryYaml]
      if env2.createClusterFails then provisionRollback cfg env2 tr2
      else
        let env3 := { env2 with clusterExists := true, clusterRunning := true }
        let tr3 := tr2 ++ [Effect.createCluster]
        if env3.deployKfpFails then provisionRollback cfg env3 tr3
        else
          let tr4 := tr3 ++ [Effect.deployKubeflowPipelines]
          match stack.artifactStoreLocalPath with
          | some p =>
            if env3.mountPathFails then provisionRollback cfg env3 tr4
            else (Except.ok (), env3, tr4 ++ [Effect.mountLocalPath p])
          | none => (Except.ok (), env3, tr4)

/-- Embeds `_get_kfp_ui_daemon_port` (kubeflow_orchestrator.py 446-455):
fall back to a fresh port only when the configured port is the default KFP
UI port and that port is occupied. -/
def get_kfp_ui_daemon_port (cfg : KubeflowConfig) (env : KfpEnv) : Nat :=
  if cfg.kubeflowPipelinesUiPort == DEFAULT_KFP_UI_PORT &&
      !(env.portFree cfg.kubeflowPipelinesUiPort) then
    env.freshPort
  else cfg.kubeflowPipelinesUiPort

/-- Embeds `resume` (kubeflow_orchestrator.py 630-663). -/
def resume (cfg : KubeflowConfig) (env : KfpEnv) :
    Except ProvisioningError Unit × KfpEnv × List Effect :=
  if is_running cfg env then
    (Except.ok (), env, [Effect.logInfo resumeAlreadyRunningMsg])
  else if !is_provisioned cfg env then
    (Except.error ⟨resumeNotProvisionedMsg⟩, env, [])
  else
    let s1 :=
      if is_local cfg && !is_cluster_running cfg env then
        ({ env with clusterRunning := true },
          [Effect.startCluster, Effect.waitUntilReady])
      else (env, [])
    if !is_daemon_running s1.1 then
      (Except.ok (),
        { s1.1 with daemonRunning := true, logFileExists := true },
        s1.2 ++ [Effect.startDaemon (get_kfp_ui_daemon_port cfg s1.1)])
    else (Except.ok (), s1.1, s1.2)

def baseEnv : KfpEnv :=
  ⟨false, false, false, false, false, false, false, false, false, false,
    fun _ => true, 8081⟩

def stackLocal : ActiveStack := ⟨"localhost:5000", some "/tmp/zenml/store"⟩

/-- C10: for a remote-mode orchestrator the cluster probes return true
unconditionally, so `is_suspended` is false in every state. -/
theorem remote_probes_constant (cfg : KubeflowConfig) (env : KfpEnv)
    (h : is_local cfg = false) :
    is_cluster_provisioned cfg env = true ∧
    is_cluster_running cfg env = true ∧
    is_suspended cfg env = false := by
  refine ⟨?_, ?_, ?_⟩
  · simp [is_cluster_provisioned, h]
  · simp [is_cluster_running, h]
  · simp [is_suspended, is_cluster_running, h]

/-- Witness for `remote_probes_constant` at a concrete remote configuration. -/
theorem remote_probes_constant_witness :
    is_local exampleRemoteCfg = false ∧
    is_suspended exampleRemoteCfg baseEnv = false :=
  ⟨by decide, (remote_probes_constant exampleRemoteCfg baseEnv (by decide)).2.2⟩

/-- C2: when `is_running` already holds, `provision` only logs an
informational message, leaves the environment untouched and performs none
of the provisioning effects, so a second call on a running backend observes
the exact state the first call left behind. -/
theorem provision_noop_when_running (cfg : KubeflowConfig)
    (stack : ActiveStack) (env : KfpEnv) (h : is_running cfg env = true) :
    provision cfg stack env =
      (Except.ok (), env, [Effect.logInfo provisionExistingMsg]) := by
  simp [provision, h]

def envRunningRemote : KfpEnv :=
  { baseEnv with prerequisitesInstalled := true, daemonRunning := true }

/-- Witness for `provision_noop_when_running`: a freshly running remote
backend. -/
theorem provision_noop_when_running_witness :
    is_running exampleRemoteCfg envRunningRemote = true ∧
    provision exampleRemoteCfg stackLocal envRunningRemote =
      (Except.ok (), envRunningRemote, [Effect.logInfo provisionExistingMsg]) :=
  ⟨rfl, provision_noop_when_running exampleRemoteCfg stackLocal envRunningRemote rfl⟩

theorem deprovisionCalled_mem_trace (cfg : KubeflowConfig) (env : KfpEnv) :
    Effect.deprovisionCalled ∈ (deprovisionRun cfg env).2 := by
  simp [deprovisionRun]

def envC3 : KfpEnv :=
  { baseEnv with prerequisitesInstalled := true, createClusterFails := true }

/-- C3 counterexample: with a local orchestrator whose cluster creation call
raises, `provision` swallows the exception after rolling back: its result is
`Except.ok ()`, exactly the result of a successful provisioning run, so
nothing is propagated to the caller (the manual fallback steps are only
logged) and the caller cannot distinguish the failed run from a successful
one by what `provision` returns. -/
theorem provision_swallows_failure_counterexample :
    envC3.createClusterFails = true ∧
    is_running exampleLocalCfg envC3 = false ∧
    (provision exampleLocalCfg stackLocal envC3).1 = Except.ok () ∧
    Effect.listManualSetupSteps ∈ (provision exampleLocalCfg stackLocal envC3).2.2 := by
  refine ⟨rfl, rfl, rfl, by decide⟩

/-- C3 amended: on any exception during the local provisioning sequence
(cluster creation, platform deployment, or artifact-store path mounting) the
controller logs the error, logs the manual fallback steps, and invokes
`deprovision` as rollback; the exception is not re-raised and `provision`
returns normally, communicating the failure only through the log. -/
theorem provision_failure_rollback (cfg : KubeflowConfig)
    (stack : ActiveStack) (env : KfpEnv)
    (h1 : is_running cfg env = false)
    (h2 : env.prerequisitesInstalled = true)
    (h3 : is_local cfg = true)
    (h4 : env.createClusterFails = true ∨ env.deployKfpFails = true ∨
      (env.mountPathFails = true ∧ stack.artifactStoreLocalPath ≠ none)) :
    (provision cfg stack env).1 = Except.ok () ∧
    Effect.logError ∈ (provision cfg stack env).2.2 ∧
    Effect.listManualSetupSteps ∈ (provision cfg stack env).2.2 ∧
    Effect.deprovisionCalled ∈ (provision cfg stack env).2.2 := by
  cases hc : env.createClusterFails with
  | true =>
    simp only [provision, h1, h2, h3, provisionRollback, Bool.not_true,
      Bool.false_eq_true, if_false, ite_false, ite_true]
    simp [hc, deprovisionCalled_mem_trace]
  | false =>
    cases hd : env.deployKfpFails with
    | true =>
      simp only [provision, h1, h2, h3, provisionRollback]
      simp [hc, hd, deprovisionCalled_mem_trace]
    | false =>
      rcases h4 with h4 | h4 | ⟨hm, hs⟩
      · rw [hc] at h4; exact absurd h4 (by simp)
      · rw [hd] at h4; exact absurd h4 (by simp)
      · cases hp : stack.artifactStoreLocalPath with
        | none => exact absurd hp hs
        | some p =>
          simp only [provision, h1, h2, h3, provisionRollback]
          simp [hc, hd, hm, hp, deprovisionCalled_mem_trace]

/-- Witness for `provision_failure_rollback` at the concrete failing input. -/
theorem provision_failure_rollback_witness :
    (provision exampleLocalCfg stackLocal envC3).1 = Except.ok () ∧
    Effect.deprovisionCalled ∈ (provision exampleLocalCfg stackLocal envC3).2.2 :=
  ⟨(provision_failure_rollback exampleLocalCfg stackLocal envC3 rfl rfl
      (by decide) (Or.inl rfl)).1,
   (provision_failure_rollback exampleLocalCfg stackLocal envC3 rfl rfl
      (by decide) (Or.inl rfl)).2.2.2⟩

def envC4 : KfpEnv := { baseEnv with prerequisitesInstalled := true }

/-- C4 counterexample: a self-managed-local orchestrator whose cluster does
not exist has `is_provisioned = false`, yet `deprovision` still performs the
cluster deletion call, refuting the claim that no cluster deletion happens
when `is_provisioned` is false. -/
theorem deprovision_deletes_when_unprovisioned_counterexample :
    is_provisioned exampleLocalCfg envC4 = false ∧
    Effect.deleteCluster ∈ (deprovisionRun exampleLocalCfg envC4).2 := by
  refine ⟨rfl, by decide⟩

/-- C4 amended: `deprovision` is total (never raises); the daemon stop and
log-file removal are guarded by existence checks, and the cluster deletion
call is performed exactly when the backend is self-managed-local —
regardless of `is_provisioned` — and never for a remote backend. -/
theorem deprovision_guarded_cleanup (cfg : KubeflowConfig) (env : KfpEnv) :
    (Effect.stopDaemon ∈ (deprovisionRun cfg env).2 → env.daemonRunning = true) ∧
    (Effect.removeLogFile ∈ (deprovisionRun cfg env).2 → env.logFileExists = true) ∧
    (Effect.deleteCluster ∈ (deprovisionRun cfg env).2 ↔ is_local cfg = true) := by
  cases hd : env.daemonRunning <;> cases hl : is_local cfg <;>
    cases hf : env.logFileExists <;>
      simp [deprovisionRun, is_daemon_running, hd, hl, hf]

def envC4w : KfpEnv :=
  { baseEnv with prerequisitesInstalled := true, daemonRunning := true }

/-- Witness for `deprovision_guarded_cleanup`: concrete local and remote
orchestrators. -/
theorem deprovision_guarded_cleanup_witness :
    envC4w.daemonRunning = true ∧
    Effect.deleteCluster ∈ (deprovisionRun exampleLocalCfg envC4w).2 ∧
    Effect.deleteCluster ∉ (deprovisionRun exampleRemoteCfg envC4w).2 :=
  ⟨(deprovision_guarded_cleanup exampleLocalCfg envC4w).1 (by decide),
   (deprovision_guarded_cleanup exampleLocalCfg envC4w).2.2.mpr (by decide),
   fun hmem => by
     have := (deprovision_guarded_cleanup exampleRemoteCfg envC4w).2.2.mp hmem
     exact absurd this (by decide)⟩

def cfgC8 : KubeflowConfig := ⟨"abcdef1234", "remote-ctx", 9999, false⟩

def envC8 : KfpEnv :=
  { baseEnv with
      prerequisitesInstalled := true
      portFree := (fun _ => false)
      freshPort := 8081 }

/-- C8 counterexample: an orchestrator configured with the non-default UI
port 9999 while every port is occupied: `resume` starts the daemon bound to
the occupied port 9999 instead of selecting the next available port,
refuting the claim that an occupied configured port always triggers the
automatic fallback. -/
theorem resume_occupied_port_counterexample :
    envC8.portFree 9999 = false ∧
    cfgC8.kubeflowPipelinesUiPort = 9999 ∧
    (resume cfgC8 envC8).2.2 = [Effect.startDaemon 9999] :=
  ⟨rfl, rfl, rfl⟩

/-- C8 amended: when the backend is provisioned and the daemon is not
running, `resume` returns successfully and starts the daemon on the port
chosen by `_get_kfp_ui_daemon_port`; the automatic fallback to a fresh port
applies only when the configured port equals the default port 8080 and that
port is occupied, and an available configured port is always used as-is. -/
theorem resume_starts_daemon_port_policy (cfg : KubeflowConfig) (env : KfpEnv)
    (h1 : is_running cfg env = false)
    (h2 : is_provisioned cfg env = true)
    (h3 : env.daemonRunning = false) :
    (resume cfg env).1 = Except.ok () ∧
    Effect.startDaemon (get_kfp_ui_daemon_port cfg env) ∈ (resume cfg env).2.2 ∧
    (cfg.kubeflowPipelinesUiPort = DEFAULT_KFP_UI_PORT →
      env.portFree DEFAULT_KFP_UI_PORT = false →
      get_kfp_ui_daemon_port cfg env = env.freshPort) ∧
    (env.portFree cfg.kubeflowPipelinesUiPort = true →
      get_kfp_ui_daemon_port cfg env = cfg.kubeflowPipelinesUiPort) := by
  refine ⟨?_, ?_, ?_, ?_⟩
  · cases hb : (is_local cfg && !is_cluster_running cfg env) <;>
      simp [resume, h1, h2, hb, is_daemon_running, h3]
  · cases hb : (is_local cfg && !is_cluster_running cfg env) <;>
      simp [resume, h1, h2, hb, is_daemon_running, h3, get_kfp_ui_daemon_port]
  · intro hp hf
    simp [get_kfp_ui_daemon_port, hp, hf]
  · intro hfree
    simp [get_kfp_ui_daemon_port, hfree]

def cfgC8w : KubeflowConfig := ⟨"abcdef1234", "remote-ctx", 8080, false⟩

/-- Witness for `resume_starts_daemon_port_policy`: the default port is
occupied, so the fallback port is chosen and the daemon starts on it. -/
theorem resume_starts_daemon_port_policy_witness :
    get_kfp_ui_daemon_port cfgC8w envC8 = 8081 ∧
    (resume cfgC8w envC8).1 = Except.ok () :=
  ⟨(resume_starts_daemon_port_policy cfgC8w envC8 rfl rfl rfl).2.2.1 rfl rfl,
   (resume_starts_daemon_port_policy cfgC8w envC8 rfl rfl rfl).1⟩

/-! ## Run submission (`_upload_and_run_pipeline`)

The kfp client calls are modelled as oracles returning either a value or
the kind of exception they raise.  `urllib3.exceptions.HTTPError` is the
only kind the outer `except` clause of the source catches;
`kfp_server_api` `ApiException` and `ValueError` are caught only by the
inner `try` around the experiment lookup. -/

inductive ExcKind where
  | httpError
  | apiException
  | valueError
  | otherExc
deriving DecidableEq

structure KfpClientEnv where
  getExperimentResult : Except ExcKind Nat
  createExperimentResult : Except ExcKind Nat
  createRecurringRunResult : Except ExcKind Nat
  createOneOffRunResult : Except ExcKind Nat
  waitForCompletionResult : Except ExcKind Unit

def runningInContextMsg : String :=
  "Running in kubernetes context."

def recurringExistsMsg : String :=
  "A recurring run has already been created with this pipeline. Creating new recurring run now.."

def creatingNewRecurringMsg : String :=
  "Creating a new recurring run for pipeline.."

def seeRecurringMsg : String :=
  "You can see all recurring runs under the experiment."

def startedRecurringMsg : String :=
  "Started recurring run."

def oneOffMsg : String :=
  "No schedule detected. Creating a one-off pipeline run.."

def startedOneOffMsg : String :=
  "Started one-off pipeline run."

def uploadFailedWarnMsg : String :=
  "Failed to upload Kubeflow pipeline. Please make sure your kube config is configured and the current context is set correctly."

/-- Embeds the inner `try` of `_upload_and_run_pipeline` (lines 364-375):
`get_experiment` falling back to `create_experiment` on `ValueError` or
`ApiException`; every other exception kind escapes to the outer handler. -/
def get_or_create_experiment (client : KfpClientEnv) :
    Except ExcKind Nat × List Effect :=
  match client.getExperimentResult with
  | .ok e => (.ok e, [Effect.getExperimentCall, Effect.logInfo recurringExistsMsg])
  | .error ek =>
    if ek = ExcKind.valueError ∨ ek = ExcKind.apiException then
      match client.createExperimentResult with
      | .ok e =>
        (.ok e, [Effect.getExperimentCall, Effect.createExperimentCall,
          Effect.logInfo creatingNewRecurringMsg])
      | .error ek2 =>
        (.error ek2, [Effect.getExperimentCall, Effect.createExperimentCall])
    else (.error ek, [Effect.getExperimentCall])

/-- Embeds the body of the outer `try` of `_upload_and_run_pipeline`
(lines 356-413), threading the trace up to the point where an exception
escapes. -/
def upload_and_run_body (cfg : KubeflowConfig) (hasSchedule : Bool)
    (client : KfpClientEnv) : Except ExcKind Unit × List Effect :=
  let tr0 := [Effect.logInfo runningInContextMsg]
  if hasSchedule then
    match get_or_create_experiment client with
    | (.error ek, tre) => (.error ek, tr0 ++ tre)
    | (.ok _e, tre) =>
      let tr1 := tr0 ++ tre ++ [Effect.logInfo seeRecurringMsg]
      match client.createRecurringRunResult with
      | .error ek => (.error ek, tr1 ++ [Effect.createRecurringRunCall])
      | .ok _id =>
        (.ok (), tr1 ++ [Effect.createRecurringRunCall,
          Effect.logInfo startedRecurringMsg])
  else
    let tr1 := tr0 ++ [Effect.logInfo oneOffMsg]
    match client.createOneOffRunResult with
    | .error ek => (.error ek, tr1 ++ [Effect.createOneOffRunCall])
    | .ok _id =>
      let tr2 := tr1 ++ [Effect.createOneOffRunCall,
        Effect.logInfo startedOneOffMsg]
      if cfg.synchronous then
        match client.waitForCompletionResult with
        | .error ek => (.error ek, tr2 ++ [Effect.waitForCompletionCall])
        | .ok _ => (.ok (), tr2 ++ [Effect.waitForCompletionCall])
      else (.ok (), tr2)

/-- Embeds `_upload_and_run_pipeline` (lines 340-420): the outer handler
catches exactly `urllib3.exceptions.HTTPError`, logs a warning and returns
normally; every other escaping exception kind is re-raised. -/
def upload_and_run_pipeline (cfg : KubeflowConfig) (hasSchedule : Bool)
    (client : KfpClientEnv) : Except ExcKind Unit × List Effect :=
  match upload_and_run_body cfg hasSchedule client with
  | (.ok _, tr) => (.ok (), tr)
  | (.error ek, tr) =>
    if ek = ExcKind.httpError then
      (.ok (), tr ++ [Effect.logWarning uploadFailedWarnMsg])
    else (.error ek, tr)

def clientOneOffApiFailure : KfpClientEnv :=
  ⟨.ok 1, .ok 1, .ok 7, .error ExcKind.apiException, .ok ()⟩

/-- C9 counterexample: a backend client whose one-off run submission raises
an `ApiException` (a kind the kfp client can raise during communication):
`_upload_and_run_pipeline` re-raises it instead of catching it and logging
a warning, refuting the claim that every exception kind raised during
submission is caught inside the routine. -/
theorem upload_and_run_reraises_counterexample :
    clientOneOffApiFailure.createOneOffRunResult = Except.error ExcKind.apiException ∧
    (upload_and_run_pipeline exampleRemoteCfg false clientOneOffApiFailure).1 =
      Except.error ExcKind.apiException := by
  exact ⟨rfl, rfl⟩

/-- C9 amended: only `urllib3` HTTP errors escaping the submission body are
caught by `_upload_and_run_pipeline`; those are logged as a warning and the
routine returns normally, while an escaping exception of any other kind is
re-raised to the caller. -/
theorem upload_and_run_catches_only_http (cfg : KubeflowConfig)
    (hasSchedule : Bool) (client : KfpClientEnv) :
    (∀ tr : List Effect,
      upload_and_run_body cfg hasSchedule client = (.error ExcKind.httpError, tr) →
        upload_and_run_pipeline cfg hasSchedule client =
          (.ok (), tr ++ [Effect.logWarning uploadFailedWarnMsg])) ∧
    (∀ ek : ExcKind,
      (upload_and_run_pipeline cfg hasSchedule client).1 = .error ek →
        ek ≠ ExcKind.httpError) := by
  constructor
  · intro tr h
    simp [upload_and_run_pipeline, h]
  · intro ek h
    revert h
    unfold upload_and_run_pipeline
    cases hb : upload_and_run_body cfg hasSchedule client with
    | mk r tr =>
      cases r with
      | ok u => simp
      | error ek2 =>
        by_cases he : ek2 = ExcKind.httpError <;> simp [he]
        intro hek
        exact hek ▸ he

def clientOneOffHttpFailure : KfpClientEnv :=
  ⟨.ok 1, .ok 1, .ok 7, .error ExcKind.httpError, .ok ()⟩

/-- Witness for `upload_and_run_catches_only_http`: an HTTP error during
one-off submission is swallowed with a warning. -/
theorem upload_and_run_catches_only_http_witness :
    upload_and_run_pipeline exampleRemoteCfg false clientOneOffHttpFailure =
      (.ok (), [Effect.logInfo runningInContextMsg, Effect.logInfo oneOffMsg,
        Effect.createOneOffRunCall, Effect.logWarning uploadFailedWarnMsg]) ∧
    ExcKind.apiException ≠ ExcKind.httpError := by
  constructor
  · exact (upload_and_run_catches_only_http exampleRemoteCfg false
      clientOneOffHttpFailure).1
      [Effect.logInfo runningInContextMsg, Effect.logInfo oneOffMsg,
        Effect.createOneOffRunCall] rfl
  · exact (upload_and_run_catches_only_http exampleRemoteCfg false
      clientOneOffApiFailure).2 ExcKind.apiException rfl

/-! ## Configuration resolver (`zenml/cli/pipeline.py`)

Python configuration values read from the YAML document are modelled by
`PyVal`; modules are symbol tables mapping attribute names to class
identifiers; the set of importable auxiliary files is a table from path to
module. -/

inductive PyVal where
  | str (s : String)
  | dict (entries : List (String × PyVal))
  | pyInt (n : Int)
  | pyBool (b : Bool)
  | pyNone

/-- Python truthiness of a configuration value, as used by
`if materializers_config:` and `if not local_path:`. -/
def pyTruthy : PyVal → Bool
  | .str s => !s.isEmpty
  | .dict entries => !entries.isEmpty
  | .pyInt n => n != 0
  | .pyBool b => b
  | .pyNone => false

def isStrVal : PyVal → Bool
  | .str _ => true
  | _ => false

def isDictVal : PyVal → Bool
  | .dict _ => true
  | _ => false

/-- Python `type(v).__name__` for the modelled values. -/
def pyTypeName : PyVal → String
  | .str _ => "str"
  | .dict _ => "dict"
  | .pyInt _ => "int"
  | .pyBool _ => "bool"
  | .pyNone => "NoneType"

/-- Python `str()` rendering of a non-dict value (`str()` of a string is the
string itself; `True`, `False` and `None` are capitalised). -/
def pyAtomStr : PyVal → String
  | .str s => s
  | .dict _ => "dict"
  | .pyInt n => toString n
  | .pyBool b => if b then "True" else "False"
  | .pyNone => "None"

/-- Python `str()` rendering used by the f-string error messages.  Nested
dictionary values are rendered one level deep. -/
def pyStr : PyVal → String
  | .dict entries =>
    "\x7b" ++ String.intercalate ", "
      (entries.map (fun p => "\x27" ++ p.1 ++ "\x27: " ++ pyAtomStr p.2)) ++ "\x7d"
  | v => pyAtomStr v

/-- Error kinds raised during resolution.  `configErr` is
`PipelineConfigurationError`; `configErrMissingKeys` is the same error as
raised by the key-check schema validation, carrying the enumerated missing
keys; `keyErr` and `typeErr` model raw Python `KeyError`/`TypeError`
faults; `importErr` a failed file import. -/
inductive PyError where
  | configErr (msg : String)
  | configErrMissingKeys (missing : List String)
  | keyErr (k : String)
  | typeErr (msg : String)
  | importErr (path : String)
deriving DecidableEq

/-- Module: attribute table of a loaded python namespace
(attribute name to class identifier) together with its `__file__`. -/
structure Module where
  file : String
  attrs : List (String × String)
deriving DecidableEq

def FileSys : Type := List (String × Module)

/-- Models `source_utils.import_python_file` at the resolver boundary. -/
def loadPythonFile (files : FileSys) (path : String) :
    Except PyError Module :=
  match List.lookup path files with
  | some m => .ok m
  | none => .error (.importErr path)

/-- Message of `_get_module_attribute` when the attribute is missing
(pipeline.py 106-112). -/
def attrErrorMsg (attributeName fileName : String) : String :=
  "Unable to load \x27" ++ (attributeName ++ ("\x27 from file \x27" ++ (fileName ++ "\x27")))

/-- Embeds `_get_module_attribute` (pipeline.py 92-112). -/
def getModuleAttribute (m : Module) (attributeName : String) :
    Except PyError String :=
  match List.lookup attributeName m.attrs with
  | some sym => .ok sym
  | none => .error (.configErr (attrErrorMsg attributeName m.file))

/-- Message rejecting a bare string source reference (pipeline.py 70-82),
instructing the structured form with a `name` and optional `file` key.  The
configured value appears twice: once quoted in the explanation and once in
the rendered correct form. -/
def strEntryErrorMsg (s : String) : String :=
  "As of ZenML version 0.8.0 `str` entries are no longer supported to define steps or materializers. Instead you will now need to pass a dictionary. This dictionary " ++
    ("**has to** contain a `name`" ++
      (" which refers to the function/class name. If this entity is defined outside the main module,you will need to additionally supply a file with the relative forward-slash-separated path to the file. \nYou tried to pass in `" ++
        (s ++
          ("` - however you should have specified the name (and file) like this: \nname: " ++
            (s ++
              ("\n" ++
                ("file: optional/filepath.py" ++ "\n")))))))

/-- Type-mismatch message for a source value that is neither `str` nor
`dict` (pipeline.py 84-89), naming the value and its type. -/
def sourceTypeMismatchMsg (v : PyVal) : String :=
  "Only `str` and `dict` values are allowed for \x27step_source\x27 attribute of a step configuration. You tried to pass in `" ++
    (pyStr v ++
      ("` (type: `" ++
        (pyTypeName v ++ "`).")))

/-- Embeds `_get_module` (pipeline.py 34-89).  A dict source loads the
`file` namespace first when present and then looks up `name`; a bare string
is rejected with the structured-form message; any other shape is rejected
with a type-mismatch message. -/
def getModule (files : FileSys) (m : Module) (configItem : PyVal) :
    Except PyError String :=
  match configItem with
  | .dict entries =>
    let loaded : Except PyError Module :=
      match List.lookup "file" entries with
      | some (.str f) => loadPythonFile files f
      | some v => .error (.typeErr ("import path must be a str, got " ++ pyTypeName v))
      | none => .ok m
    match loaded with
    | .error e => .error e
    | .ok m2 =>
      match List.lookup "name" entries with
      | some (.str n) => getModuleAttribute m2 n
      | some v => .error (.typeErr ("attribute name must be a str, got " ++ pyTypeName v))
      | none => .error (.keyErr "name")
  | .str s => .error (.configErr (strEntryErrorMsg s))
  | v => .error (.configErr (sourceTypeMismatchMsg v))

/-- C5: a bare string source reference is rejected with a
`PipelineConfigurationError` whose message instructs the structured form
(containing the `name` key instruction, the optional `file` key instruction
and the offending value), and a source reference that is neither a string
nor a dict is rejected with a type-mismatch error naming the value and its
type. -/
theorem source_reference_rejection (files : FileSys) (m : Module) (s : String) :
    (getModule files m (.str s) = .error (.configErr (strEntryErrorMsg s)) ∧
      containsStr (strEntryErrorMsg s) s ∧
      containsStr (strEntryErrorMsg s) "**has to** contain a `name`" ∧
      containsStr (strEntryErrorMsg s) "file: optional/filepath.py") ∧
    (∀ v : PyVal, isStrVal v = false → isDictVal v = false →
      getModule files m v = .error (.configErr (sourceTypeMismatchMsg v)) ∧
      containsStr (sourceTypeMismatchMsg v) (pyStr v) ∧
      containsStr (sourceTypeMismatchMsg v) (pyTypeName v)) := by
  constructor
  · refine ⟨rfl, ?_, ?_, ?_⟩
    · refine ⟨"As of ZenML version 0.8.0 `str` entries are no longer supported to define steps or materializers. Instead you will now need to pass a dictionary. This dictionary " ++
        ("**has to** contain a `name`" ++
          " which refers to the function/class name. If this entity is defined outside the main module,you will need to additionally supply a file with the relative forward-slash-separated path to the file. \nYou tried to pass in `"),
        "` - however you should have specified the name (and file) like this: \nname: " ++
          (s ++ ("\n" ++ ("file: optional/filepath.py" ++ "\n"))), ?_⟩
      simp only [strEntryErrorMsg, strAppend_assoc]
    · exact ⟨"As of ZenML version 0.8.0 `str` entries are no longer supported to define steps or materializers. Instead you will now need to pass a dictionary. This dictionary ",
        " which refers to the function/class name. If this entity is defined outside the main module,you will need to additionally supply a file with the relative forward-slash-separated path to the file. \nYou tried to pass in `" ++
          (s ++
            ("` - however you should have specified the name (and file) like this: \nname: " ++
              (s ++ ("\n" ++ ("file: optional/filepath.py" ++ "\n"))))), rfl⟩
    · refine ⟨"As of ZenML version 0.8.0 `str` entries are no longer supported to define steps or materializers. Instead you will now need to pass a dictionary. This dictionary " ++
        ("**has to** contain a `name`" ++
          (" which refers to the function/class name. If this entity is defined outside the main module,you will need to additionally supply a file with the relative forward-slash-separated path to the file. \nYou tried to pass in `" ++
            (s ++
              ("` - however you should have specified the name (and file) like this: \nname: " ++
                (s ++ "\n"))))),
        "\n", ?_⟩
      simp only [strEntryErrorMsg, strAppend_assoc]
  · intro v hs hd
    refine ⟨?_, ?_, ?_⟩
    · cases v <;> simp_all [getModule, isStrVal, isDictVal]
    · exact ⟨"Only `str` and `dict` values are allowed for \x27step_source\x27 attribute of a step configuration. You tried to pass in `",
        "` (type: `" ++ (pyTypeName v ++ "`)."), rfl⟩
    · refine ⟨"Only `str` and `dict` values are allowed for \x27step_source\x27 attribute of a step configuration. You tried to pass in `" ++
        (pyStr v ++ "` (type: `"), "`).", ?_⟩
      simp only [sourceTypeMismatchMsg, strAppend_assoc]

/-- Witness for `source_reference_rejection` at a concrete bare string and a
concrete integer source value. -/
theorem source_reference_rejection_witness :
    getModule [] ⟨"run.py", []⟩ (.str "trainer") =
      .error (.configErr (strEntryErrorMsg "trainer")) ∧
    getModule [] ⟨"run.py", []⟩ (.pyInt 3) =
      .error (.configErr (sourceTypeMismatchMsg (.pyInt 3))) :=
  ⟨(source_reference_rejection [] ⟨"run.py", []⟩ "trainer").1.1,
   ((source_reference_rejection [] ⟨"run.py", []⟩ "trainer").2 (.pyInt 3)
      rfl rfl).1⟩

/-- Keys of a dict value, `none` for other values. -/
def PyVal.lookupKey (v : PyVal) (k : String) : Option PyVal :=
  match v with
  | .dict entries => List.lookup k entries
  | _ => none

/-- Required keys of `entries` that are absent, in schema order. -/
def missingKeysOf (required : List String) (entries : List (String × PyVal)) :
    List String :=
  required.filter (fun k => (List.lookup k entries).isNone)

/-- Modelled from the spec: `PipelineConfigurationKeys.key_check` from
`zenml.config.config_keys`, whose source is not part of this repository
snapshot.  Per the spec the required top-level keys are `name` and `steps`,
and a failed check raises a `ConfigurationError` enumerating exactly the
missing keys. -/
def pipeline_key_check (config : PyVal) : Except PyError Unit :=
  match config with
  | .dict entries =>
    match missingKeysOf ["name", "steps"] entries with
    | [] => .ok ()
    | ks => .error (.configErrMissingKeys ks)
  | v => .error (.typeErr ("configuration must be a dict, got " ++ pyTypeName v))

/-- Modelled from the spec: `StepConfigurationKeys.key_check`; the required
step-level key is `source` (`materializers` is optional). -/
def step_key_check (stepConfig : PyVal) : Except PyError Unit :=
  match stepConfig with
  | .dict entries =>
    match missingKeysOf ["source"] entries with
    | [] => .ok ()
    | ks => .error (.configErrMissingKeys ks)
  | v => .error (.typeErr ("step configuration must be a dict, got " ++ pyTypeName v))

/-- Materializer binding attached to a step instance by
`with_return_materializers`. -/
inductive Materializers where
  | single (sym : String)
  | perOutput (outs : List (String × String))

structure StepInstance where
  cls : String
  materializers : Option Materializers

structure Pipeline where
  cls : String
  steps : List (String × StepInstance)

/-- Type-mismatch message for a materializers value that is neither `str`
nor `dict` (pipeline.py 166-171). -/
def materializersTypeMismatchMsg (v : PyVal) : String :=
  "Only `str` and `dict` values are allowed for \x27materializers\x27 attribute of a step configuration. You tried to pass in `" ++
    (pyStr v ++
      ("` (type: `" ++
        (pyTypeName v ++ "`).")))

/-- Resolves, in document order, each output-name-to-source entry of a
materializers mapping through `_get_module` (the dict comprehension of
pipeline.py 161-164). -/
def resolveOutputs (files : FileSys) (m : Module) :
    List (String × PyVal) → Except PyError (List (String × String))
  | [] => .ok []
  | (o, src) :: rest =>
    match getModule files m src with
    | .error e => .error e
    | .ok sym =>
      match resolveOutputs files m rest with
      | .error e => .error e
      | .ok l => .ok ((o, sym) :: l)

/-- Embeds the materializers block of `run_pipeline` (pipeline.py 152-174):
a falsy value attaches nothing; a string goes through `_get_module` (which
rejects every bare string); a dict is treated as an output-name-to-source
mapping; any other truthy value raises the type-mismatch error. -/
def resolveMaterializers (files : FileSys) (m : Module) (matCfg : PyVal) :
    Except PyError (Option Materializers) :=
  if pyTruthy matCfg then
    match matCfg with
    | .str s =>
      match getModule files m (.str s) with
      | .error e => .error e
      | .ok sym => .ok (some (.single sym))
    | .dict entries =>
      match resolveOutputs files m entries with
      | .error e => .error e
      | .ok l => .ok (some (.perOutput l))
    | v => .error (.configErr (materializersTypeMismatchMsg v))
  else .ok none

/-- Trace events of one CLI `run_pipeline` invocation. -/
inductive RunEvent where
  | topKeyCheck
  | stepKeyCheck (stepName : String)
  | stepResolved (stepName sym : String)
  | stepInstantiated (stepName : String)
  | pipelineInstantiated
deriving DecidableEq

/-- Embeds the step loop of `run_pipeline` (pipeline.py 143-176): for each
step, in document order, the step key check runs, then the source is
resolved and the step instantiated, then the materializers are resolved and
attached. -/
def processSteps (files : FileSys) (m : Module) :
    List (String × PyVal) →
      Except PyError (List (String × StepInstance)) × List RunEvent
  | [] => (.ok [], [])
  | (stepName, sc) :: rest =>
    match step_key_check sc with
    | .error e => (.error e, [RunEvent.stepKeyCheck stepName])
    | .ok _ =>
      match sc.lookupKey "source" with
      | none => (.error (.keyErr "source"), [RunEvent.stepKeyCheck stepName])
      | some src =>
        match getModule files m src with
        | .error e => (.error e, [RunEvent.stepKeyCheck stepName])
        | .ok cls =>
          let ev := [RunEvent.stepKeyCheck stepName,
            RunEvent.stepResolved stepName cls,
            RunEvent.stepInstantiated stepName]
          match resolveMaterializers files m ((sc.lookupKey "materializers").getD .pyNone) with
          | .error e => (.error e, ev)
          | .ok mats =>
            match processSteps files m rest with
            | (.error e, evs) => (.error e, ev ++ evs)
            | (.ok l, evs) => (.ok ((stepName, ⟨cls, mats⟩) :: l), ev ++ evs)

/-- Embeds `run_pipeline` (pipeline.py 129-181) up to the final
`pipeline_instance.run()` call: top-level key check, pipeline symbol
lookup, then the step loop, then pipeline assembly. -/
def run_pipeline_cli (files : FileSys) (m : Module) (config : PyVal) :
    Except PyError Pipeline × List RunEvent :=
  match pipeline_key_check config with
  | .error e => (.error e, [RunEvent.topKeyCheck])
  | .ok _ =>
    match config.lookupKey "name" with
    | some (.str pipelineName) =>
      match getModuleAttribute m pipelineName with
      | .error e => (.error e, [RunEvent.topKeyCheck])
      | .ok pipelineCls =>
        match config.lookupKey "steps" with
        | some (.dict stepEntries) =>
          match processSteps files m stepEntries with
          | (.error e, evs) => (.error e, RunEvent.topKeyCheck :: evs)
          | (.ok steps, evs) =>
            (.ok ⟨pipelineCls, steps⟩,
              RunEvent.topKeyCheck :: (evs ++ [RunEvent.pipelineInstantiated]))
        | some v =>
          (.error (.typeErr ("steps must be a dict, got " ++ pyTypeName v)),
            [RunEvent.topKeyCheck])
        | none => (.error (.keyErr "steps"), [RunEvent.topKeyCheck])
    | some v =>
      (.error (.typeErr ("pipeline name must be a str, got " ++ pyTypeName v)),
        [RunEvent.topKeyCheck])
    | none => (.error (.keyErr "name"), [RunEvent.topKeyCheck])

def moduleC6 : Module := ⟨"run.py", [("P", "PipelineP"), ("Step1", "Step1Cls")]⟩

def configC6 : PyVal :=
  .dict [("name", .str "P"),
    ("steps", .dict [
      ("s1", .dict [("source", .dict [("name", .str "Step1")])]),
      ("s2", .dict [("enabled", .pyBool true)])])]

/-- C6 counterexample: in a document whose first step is well-formed and
resolvable and whose second step lacks the required `source` key, the run
trace shows that step `s1` is resolved and instantiated before the key
check of step `s2` fails, refuting the claim that all per-step key checks
run before any symbol resolution begins.  The error still names exactly the
missing key. -/
theorem step_key_check_interleaving_counterexample :
    (run_pipeline_cli [] moduleC6 configC6).1 =
      .error (.configErrMissingKeys ["source"]) ∧
    (run_pipeline_cli [] moduleC6 configC6).2 =
      [RunEvent.topKeyCheck, RunEvent.stepKeyCheck "s1",
        RunEvent.stepResolved "s1" "Step1Cls", RunEvent.stepInstantiated "s1",
        RunEvent.stepKeyCheck "s2"] :=
  ⟨rfl, rfl⟩

/-- C6 amended: a document missing required top-level keys fails the
top-level key check with a `ConfigurationError` naming exactly the missing
keys before any resolution event; a step configuration missing the
required `source` key fails its own key check with a `ConfigurationError`
naming exactly `source`, and that check runs immediately before the step's
own resolution — so earlier steps of the document may already have been
resolved and instantiated when a later step's key check fails. -/
theorem key_check_failures_named (files : FileSys) (m : Module) :
    (∀ entries : List (String × PyVal),
      missingKeysOf ["name", "steps"] entries ≠ [] →
        run_pipeline_cli files m (.dict entries) =
          (.error (.configErrMissingKeys (missingKeysOf ["name", "steps"] entries)),
            [RunEvent.topKeyCheck])) ∧
    (∀ (stepName : String) (entries : List (String × PyVal))
        (rest : List (String × PyVal)),
      List.lookup "source" entries = none →
        processSteps files m ((stepName, .dict entries) :: rest) =
          (.error (.configErrMissingKeys ["source"]),
            [RunEvent.stepKeyCheck stepName])) := by
  constructor
  · intro entries h
    cases hk : missingKeysOf ["name", "steps"] entries with
    | nil => exact absurd hk h
    | cons k ks =>
      rw [← hk]
      simp [run_pipeline_cli, pipeline_key_check, hk]
  · intro stepName entries rest h
    simp [processSteps, step_key_check, missingKeysOf, List.filter, h]

/-- Witness for `key_check_failures_named`: a document missing `steps` and
a step missing `source`. -/
theorem key_check_failures_named_witness :
    run_pipeline_cli [] moduleC6 (.dict [("name", .str "P")]) =
      (.error (.configErrMissingKeys ["steps"]), [RunEvent.topKeyCheck]) ∧
    processSteps [] moduleC6 [("s2", .dict [("enabled", .pyBool true)])] =
      (.error (.configErrMissingKeys ["source"]), [RunEvent.stepKeyCheck "s2"]) :=
  ⟨(key_check_failures_named [] moduleC6).1 [("name", .str "P")] (by decide),
   (key_check_failures_named [] moduleC6).2 "s2"
      [("enabled", .pyBool true)] [] rfl⟩

def moduleC7 : Module := ⟨"run.py", [("MyMat", "MyMatCls")]⟩

/-- C7 counterexample: a materializers field given as a single source
reference (the string `MyMat`) whose symbol is present in the base module
raises the legacy-string `ConfigurationError` instead of resolving and
attaching the materializer, refuting the claim that a single resolvable
source reference succeeds. -/
theorem single_materializer_counterexample :
    List.lookup "MyMat" moduleC7.attrs = some "MyMatCls" ∧
    resolveMaterializers [] moduleC7 (.str "MyMat") =
      .error (.configErr (strEntryErrorMsg "MyMat")) :=
  ⟨rfl, rfl⟩

theorem resolveOutputs_ok (files : FileSys) (m : Module) :
    ∀ (es : List (String × PyVal)) (f : String × PyVal → String),
      (∀ p ∈ es, getModule files m p.2 = .ok (f p)) →
        resolveOutputs files m es = .ok (es.map (fun p => (p.1, f p))) := by
  intro es f h
  induction es with
  | nil => rfl
  | cons p rest ih =>
    have hp := h p (by simp)
    have hr := ih (fun q hq => h q (by simp [hq]))
    simp [resolveOutputs, hp, hr]

/-- C7 amended: a truthy string materializers value always raises the
legacy-string `ConfigurationError` (even when the symbol would resolve, so
the single-reference form never attaches anything); a non-empty mapping
from output names to resolvable source references resolves each reference
in order and attaches them per output; a truthy value of any other type
raises a type-mismatch `ConfigurationError` naming the value and its type;
and a falsy value (absent, `None`, `0`, `False`, empty string or empty
mapping) attaches nothing and raises no error. -/
theorem materializers_shapes (files : FileSys) (m : Module) :
    (∀ s : String, s.isEmpty = false →
      resolveMaterializers files m (.str s) =
        .error (.configErr (strEntryErrorMsg s))) ∧
    (∀ (es : List (String × PyVal)) (f : String × PyVal → String), es ≠ [] →
      (∀ p ∈ es, getModule files m p.2 = .ok (f p)) →
        resolveMaterializers files m (.dict es) =
          .ok (some (.perOutput (es.map (fun p => (p.1, f p)))))) ∧
    (∀ v : PyVal, pyTruthy v = true → isStrVal v = false → isDictVal v = false →
      resolveMaterializers files m v =
        .error (.configErr (materializersTypeMismatchMsg v))) ∧
    (∀ v : PyVal, pyTruthy v = false →
      resolveMaterializers files m v = .ok none) := by
  refine ⟨?_, ?_, ?_, ?_⟩
  · intro s h
    simp [resolveMaterializers, pyTruthy, h, getModule]
  · intro es f hne hpt
    cases es with
    | nil => exact absurd rfl hne
    | cons p rest =>
      have hro := resolveOutputs_ok files m (p :: rest) f hpt
      simp [resolveMaterializers, pyTruthy, hro]
  · intro v ht hs hd
    cases v <;> simp_all [resolveMaterializers, pyTruthy, isStrVal, isDictVal]
  · intro v hf
    simp [resolveMaterializers, hf]

def matModuleW : Module := ⟨"materializers.py", [("M1", "M1Cls"), ("M2", "M2Cls")]⟩

/-- Witness for `materializers_shapes`: a two-output mapping resolves and
attaches per output; a falsy `0` attaches nothing; a truthy `True` raises
the type-mismatch error. -/
theorem materializers_shapes_witness :
    resolveMaterializers [] matModuleW
        (.dict [("out1", .dict [("name", .str "M1")]),
          ("out2", .dict [("name", .str "M2")])]) =
      .ok (some (.perOutput [("out1", "M1Cls"), ("out2", "M2Cls")])) ∧
    resolveMaterializers [] matModuleW (.pyInt 0) = .ok none ∧
    resolveMaterializers [] matModuleW (.pyBool true) =
      .error (.configErr (materializersTypeMismatchMsg (.pyBool true))) := by
  refine ⟨?_, ?_, ?_⟩
  · exact (materializers_shapes [] matModuleW).2.1
      [("out1", .dict [("name", .str "M1")]), ("out2", .dict [("name", .str "M2")])]
      (fun p => if p.1 == "out1" then "M1Cls" else "M2Cls")
      (by simp)
      (by
        intro p hp
        simp only [List.mem_cons, List.mem_singleton] at hp
        rcases hp with h | h | h
        · subst h; rfl
        · subst h; rfl
        · exact absurd h (by simp))
  · exact (materializers_shapes [] matModuleW).2.2.2 (.pyInt 0) rfl
  · exact (materializers_shapes [] matModuleW).2.2.1 (.pyBool true) rfl rfl rfl

end ZenML
